import Mathlib

/-!
Verification of the record-extraction engine of this repository.

The development shallowly embeds the extraction logic of
`parse_local_html.py` (functions `parse_loan_html`, `extract_loan_data`,
`parse_amount`), the near-identical scraper variant in
`propublica_scraper.py` (`PropublicaLoanSpider.parse`,
`_extract_loan_data`, `_parse_amount`) and the pre-extraction response
gate in `wordpress_scraper.py` (`WordPressSpider.parse`,
`_is_cloudflare_challenge`, `_handle_http_error`).

Python strings are modelled as Lean `String`s; all character-level
operations (strip, lower, split, substring containment) are implemented
on `List Char` so that every definition kernel-evaluates on concrete
inputs.  `datetime.now()` is modelled as an explicit `now : String`
parameter (the effectful clock becomes an input).  The external
`urljoin` helper of the Python standard library is an external
collaborator and is passed as a function parameter.  A DOM fragment is
modelled by the results the extraction code reads off it via its CSS
queries; a fragment whose processing raises (the `try`/`except` in both
driver loops guards arbitrary selector-layer exceptions) is modelled by
the `FragE.raises` constructor.  Python `float` results are modelled as
`Rat` (the claims only involve exact decimal values).
-/

/- ### Character/string primitives mirroring the Python builtins used -/

/-- Python whitespace characters matched by `\s` (ASCII range) and
stripped by `str.strip()`. -/
def isPySpace (c : Char) : Bool :=
  c = ' ' || c = '\t' || c = '\n' || c = '\r' || c = '\x0b' || c = '\x0c'

/-- `str.strip()` on a character list. -/
def pyStripL (cs : List Char) : List Char :=
  ((cs.dropWhile isPySpace).reverse.dropWhile isPySpace).reverse

/-- Python `str.strip()`. -/
def pyStrip (s : String) : String := String.mk (pyStripL s.toList)

/-- ASCII lowering of one character, as `str.lower()` does on ASCII. -/
def pyLowerChar (c : Char) : Char :=
  if 'A' ≤ c ∧ c ≤ 'Z' then Char.ofNat (c.toNat + 32) else c

/-- Python `str.lower()` (ASCII fragment; all fingerprints are ASCII). -/
def pyLower (s : String) : String := String.mk (s.toList.map pyLowerChar)

/-- Helper for substring containment: does `needle` occur in the list? -/
def strContainsAux (needle : List Char) : List Char → Bool
  | [] => needle.isEmpty
  | c :: cs => needle.isPrefixOf (c :: cs) || strContainsAux needle cs

/-- Python `needle in hay` substring test. -/
def strContains (hay needle : String) : Bool :=
  strContainsAux needle.toList hay.toList

/-- Python `s.startswith(p)`. -/
def pyStartsWith (s p : String) : Bool := p.toList.isPrefixOf s.toList

/-- Python `s.split(sep)` for a one-character separator. -/
def pySplitChar (sep : Char) : List Char → List (List Char)
  | [] => [[]]
  | c :: rest =>
    match pySplitChar sep rest with
    | [] => [[]]
    | g :: gs => if c = sep then [] :: g :: gs else (c :: g) :: gs

/- ### Field Normalizer: `parse_amount` / `_parse_amount`
(identical in `parse_local_html.py` lines 148-156 and
`propublica_scraper.py` lines 227-236) -/

def isAsciiDigit (c : Char) : Bool := '0' ≤ c && c ≤ '9'

/-- Numeric value of a digit string read left to right. -/
def digitsVal (cs : List Char) : Nat :=
  cs.foldl (fun a c => 10 * a + (c.toNat - 48)) 0

/-- Leading-sign parsing of Python `float`: returns (negative?, rest). -/
def parseSign (cs : List Char) : Bool × List Char :=
  match cs with
  | '-' :: rest => (true, rest)
  | '+' :: rest => (false, rest)
  | _ => (false, cs)

/-- The mantissa grammar of Python `float`: `digits`, `digits.digits`,
`digits.` or `.digits` (at least one digit overall). -/
def parseMantissa (cs : List Char) : Option Rat :=
  match pySplitChar '.' cs with
  | [a] =>
    if !a.isEmpty && a.all isAsciiDigit then some ((digitsVal a : Nat) : Rat)
    else none
  | [a, b] =>
    if (!a.isEmpty || !b.isEmpty) && a.all isAsciiDigit && b.all isAsciiDigit then
      some ((digitsVal a : Nat) + ((digitsVal b : Nat) : Rat) / (10 : Rat) ^ b.length)
    else none
  | _ => none

/-- The exponent part of Python `float`: optional sign then digits. -/
def parseExpPart (cs : List Char) : Option Int :=
  let sr := parseSign cs
  if !sr.2.isEmpty && sr.2.all isAsciiDigit then
    some (if sr.1 then -((digitsVal sr.2 : Nat) : Int) else ((digitsVal sr.2 : Nat) : Int))
  else none

/-- Model of the Python builtin `float(str)` on finite decimal input:
surrounding whitespace is stripped, then `[sign] mantissa [e exponent]`
is parsed; any other shape is a parse failure (`none`, standing for the
`ValueError` the callers catch).  The non-finite spellings (`inf`,
`nan`) are outside this model; no input below exercises them. -/
def pythonFloat (s : String) : Option Rat :=
  let t := (pyStrip s).toList.map pyLowerChar
  let sr := parseSign t
  match pySplitChar 'e' sr.2 with
  | [m] => (parseMantissa m).map (fun q => if sr.1 then -q else q)
  | [m, ex] =>
    match parseMantissa m, parseExpPart ex with
    | some q, some e => some ((if sr.1 then -q else q) * (10 : Rat) ^ e)
    | _, _ => none
  | _ => none

/-- `parse_amount` (`parse_local_html.py` 148-156) = `_parse_amount`
(`propublica_scraper.py` 227-236): empty string short-circuits to
`None`; otherwise `re.sub(r'[$,\s]', '', s)` removes `$`, `,` and
whitespace everywhere, then `float(...)` is attempted, with any
`ValueError`/`TypeError` caught and turned into `None`. -/
def parse_amount (amount_str : String) : Option Rat :=
  if amount_str = "" then none
  else pythonFloat
    (String.mk (amount_str.toList.filter (fun c => !(c = '$' || c = ',' || isPySpace c))))

/- ### Data model of one record fragment -/

/-- One detail block inside the `div.flex.flex-wrap` container of a
fragment: `label` is `block.css('div.f7::text').get('')` (raw, the code
strips it), `value` is `block.css('div.f5.tiempos-text::text').get('')`
(raw; `''` when the value div is absent). -/
structure Block where
  label : String
  value : String
deriving DecidableEq, Repr

/-- A record fragment (one `li` loan entry) as seen through the CSS
queries the extractors perform on it:
`recipient_text`/`recipient_href` come from the
`div.tiempos-text.lh-title a` link, `blocks` are the
`div[class*="w-"]` detail blocks of the flex container (an absent flex
container is the empty list: the guarded loop then runs zero times,
exactly like the Python `if flex_container:` guard), and
`all_values_raw` is `item.css('div.f5.tiempos-text::text').getall()`. -/
structure Frag where
  recipient_text : String
  recipient_href : String
  blocks : List Block
  all_values_raw : List String
deriving DecidableEq, Repr

/-- A located fragment as handed to the driver loop: either a fragment
the field extractor can process, or one whose processing raises (the
selector layer may throw; both drivers wrap the call in
`try`/`except Exception`). -/
inductive FragE where
  | ok (f : Frag)
  | raises (msg : String)
deriving DecidableEq, Repr

/-- The four typed field slots initialized to `''` at
`parse_local_html.py` 89-92 / `propublica_scraper.py` 169-172. -/
structure Fields where
  location : String
  loan_status : String
  loan_amount : String
  date_approved : String
deriving DecidableEq, Repr

def emptyFields : Fields := ⟨"", "", "", ""⟩

/-- Names for the four fields that have both a structural lookup and a
heuristic recognizer. -/
inductive FieldId where
  | loc
  | status
  | amt
  | date
deriving DecidableEq, Repr

def getF : FieldId → Fields → String
  | FieldId.loc, f => f.location
  | FieldId.status, f => f.loan_status
  | FieldId.amt, f => f.loan_amount
  | FieldId.date, f => f.date_approved

/- ### Structural tier (identical in both scrapers:
`parse_local_html.py` 97-112, `propublica_scraper.py` 176-192) -/

/-- `value = block.css(...).get(''); if value: value = value.strip()`. -/
def blockValue (b : Block) : String :=
  if b.value = "" then b.value else pyStrip b.value

/-- One iteration of the labelled-block loop: the label (stripped) is
substring-matched against the four captions in order and the
corresponding slot is assigned (overwriting any earlier assignment,
even with an empty value). -/
def structStep (f : Fields) (b : Block) : Fields :=
  let label := pyStrip b.label
  let value := blockValue b
  if strContains label "Location" then { f with location := value }
  else if strContains label "Loan Status" then { f with loan_status := value }
  else if strContains label "Loan Amount" then { f with loan_amount := value }
  else if strContains label "Date Approved" then { f with date_approved := value }
  else f

/-- The whole structural pass over the detail blocks. -/
def structPass (blocks : List Block) : Fields :=
  List.foldl structStep emptyFields blocks

/- ### Heuristic tier -/

/-- `all_values = [v.strip() for v in ... .getall() if v.strip()]`. -/
def allValues (item : Frag) : List String :=
  (item.all_values_raw.map pyStrip).filter (fun v => v ≠ "")

def status_keywords : List String :=
  ["Forgiven", "Active", "Paid", "Exempt", "Cancelled"]

def months : List String :=
  ["Jan", "Feb", "March", "April", "May", "June",
   "July", "Aug", "Sept", "Oct", "Nov", "Dec"]

/-- The location recognizer of `parse_local_html.py` 120-122: a comma is
present, splitting on `,` gives exactly two parts, and the second part,
stripped, has length 2. -/
def loc_recognizer (val : String) : Bool :=
  strContains val "," && (pySplitChar ',' val.toList).length = 2 &&
    (pyStripL ((pySplitChar ',' val.toList).getD 1 [])).length = 2

/-- The location condition of `propublica_scraper.py` 202: a comma is
present and splitting on `,` gives exactly two parts — no check on the
second segment. -/
def pp_loc_recognizer (val : String) : Bool :=
  strContains val "," && (pySplitChar ',' val.toList).length = 2

/-- One iteration of the heuristic fallback loop of
`parse_local_html.py` 119-132, generalized by an enable function per
recognizer (the configuration surface of the spec; `fun _ => true` is
the code as written, see `heurStep`).  The branch structure mirrors the
Python `if`/`elif` chain, including the nested region-length test whose
failure skips the remaining `elif`s. -/
def heurStepGen (en : FieldId → Bool) (f : Fields) (val : String) : Fields :=
  if en FieldId.loc = true ∧ f.location = "" ∧ strContains val "," = true ∧
      (pySplitChar ',' val.toList).length = 2 then
    if (pyStripL ((pySplitChar ',' val.toList).getD 1 [])).length = 2 then
      { f with location := val }
    else f
  else if en FieldId.amt = true ∧ f.loan_amount = "" ∧ pyStartsWith val "$" = true then
    { f with loan_amount := val }
  else if en FieldId.status = true ∧ f.loan_status = "" ∧
      (status_keywords.any (fun k => strContains val k)) = true then
    { f with loan_status := val }
  else if en FieldId.date = true ∧ f.date_approved = "" ∧
      (months.any (fun m => strContains val m)) = true then
    { f with date_approved := val }
  else f

/-- The heuristic fallback loop body exactly as written in
`parse_local_html.py` 119-132. -/
def heurStep : Fields → String → Fields := heurStepGen (fun _ => true)

/-- One iteration of the heuristic fallback loop of
`propublica_scraper.py` 201-211: no region-length test on location, and
the status keywords are only `Forgiven`/`Active`/`Paid`. -/
def ppHeurStep (f : Fields) (val : String) : Fields :=
  if f.location = "" ∧ strContains val "," = true ∧
      (pySplitChar ',' val.toList).length = 2 then
    { f with location := val }
  else if f.loan_amount = "" ∧ pyStartsWith val "$" = true then
    { f with loan_amount := val }
  else if f.loan_status = "" ∧ (strContains val "Forgiven" = true ∨
      strContains val "Active" = true ∨ strContains val "Paid" = true) then
    { f with loan_status := val }
  else if f.date_approved = "" ∧ (months.any (fun m => strContains val m)) = true then
    { f with date_approved := val }
  else f

/-- The `propublica_scraper.py` heuristic iteration generalized by an
enable function per recognizer (the configuration surface of the spec;
`fun _ => true` coincides with `ppHeurStep`, see
`ppHeurStepGen_true`). -/
def ppHeurStepGen (en : FieldId → Bool) (f : Fields) (val : String) : Fields :=
  if en FieldId.loc = true ∧ f.location = "" ∧ strContains val "," = true ∧
      (pySplitChar ',' val.toList).length = 2 then
    { f with location := val }
  else if en FieldId.amt = true ∧ f.loan_amount = "" ∧ pyStartsWith val "$" = true then
    { f with loan_amount := val }
  else if en FieldId.status = true ∧ f.loan_status = "" ∧ (strContains val "Forgiven" = true ∨
      strContains val "Active" = true ∨ strContains val "Paid" = true) then
    { f with loan_status := val }
  else if en FieldId.date = true ∧ f.date_approved = "" ∧
      (months.any (fun m => strContains val m)) = true then
    { f with date_approved := val }
  else f

/- ### Per-fragment extraction -/

/-- The two-tier field extraction of `extract_loan_data`
(`parse_local_html.py` 94-132), with the heuristic recognizers
generalized by an enable function: structural pass over the blocks,
then — only when the location **or** the loan amount is still empty —
the heuristic scan over all value-shaped text nodes. -/
def extractFieldsGen (en : FieldId → Bool) (item : Frag) : Fields :=
  if (structPass item.blocks).location = "" ∨ (structPass item.blocks).loan_amount = "" then
    List.foldl (heurStepGen en) (structPass item.blocks) (allValues item)
  else structPass item.blocks

/-- `extract_loan_data`'s field extraction as written (all recognizers
on). -/
def extractFields (item : Frag) : Fields := extractFieldsGen (fun _ => true) item

/-- The field extraction of `_extract_loan_data`
(`propublica_scraper.py` 174-211): same structural pass, but the
heuristic scan only runs when the location **and** the loan amount are
both empty. -/
def ppExtractFields (item : Frag) : Fields :=
  if (structPass item.blocks).location = "" ∧ (structPass item.blocks).loan_amount = "" then
    List.foldl ppHeurStep (structPass item.blocks) (allValues item)
  else structPass item.blocks

/-- `_extract_loan_data`'s field extraction generalized by the
recognizer-enable function (`fun _ => true` coincides with
`ppExtractFields`). -/
def ppExtractFieldsGen (en : FieldId → Bool) (item : Frag) : Fields :=
  if (structPass item.blocks).location = "" ∧ (structPass item.blocks).loan_amount = "" then
    List.foldl (ppHeurStepGen en) (structPass item.blocks) (allValues item)
  else structPass item.blocks

/-- An extracted record of `parse_local_html.py` 134-143. -/
structure Loan where
  index : Nat
  recipient : String
  detail_url : String
  location : String
  loan_status : String
  loan_amount : String
  loan_amount_numeric : Option Rat
  date_approved : String
deriving DecidableEq, Repr

/-- `parse_local_html.py` 84-86: prepend the site origin unless the href
already starts with `http`. -/
def localDetailUrl (href : String) : String :=
  if href ≠ "" ∧ pyStartsWith href "http" = false then
    "https://projects.propublica.org" ++ href
  else href

/-- `extract_loan_data(item, index)` of `parse_local_html.py` 78-145,
generalized by the recognizer-enable function. -/
def extract_loan_data_gen (en : FieldId → Bool) (item : Frag) (index : Nat) : Loan :=
  let f := extractFieldsGen en item
  { index := index + 1,
    recipient := pyStrip item.recipient_text,
    detail_url := localDetailUrl item.recipient_href,
    location := f.location,
    loan_status := f.loan_status,
    loan_amount := f.loan_amount,
    loan_amount_numeric := parse_amount f.loan_amount,
    date_approved := f.date_approved }

/-- `extract_loan_data(item, index)` as written. -/
def extract_loan_data (item : Frag) (index : Nat) : Loan :=
  extract_loan_data_gen (fun _ => true) item index

/-- An extracted record of `propublica_scraper.py` 213-223 (it
additionally carries `scraped_at`). -/
structure PPLoan where
  index : Nat
  recipient : String
  detail_url : String
  location : String
  loan_status : String
  loan_amount : String
  loan_amount_numeric : Option Rat
  date_approved : String
  scraped_at : String
deriving DecidableEq, Repr

/-- `_extract_loan_data(item, response, index)` of
`propublica_scraper.py` 151-225.  `uj` is the external
`urllib.parse.urljoin` collaborator and `respUrl` is `response.url`;
`now` is the clock reading used for `scraped_at`. -/
def pp_extract_loan_data (uj : String → String → String) (respUrl : String)
    (now : String) (item : Frag) (index : Nat) : PPLoan :=
  let f := ppExtractFields item
  { index := index + 1,
    recipient := pyStrip item.recipient_text,
    detail_url := if item.recipient_href ≠ "" then uj respUrl item.recipient_href
      else item.recipient_href,
    location := f.location,
    loan_status := f.loan_status,
    loan_amount := f.loan_amount,
    loan_amount_numeric := parse_amount f.loan_amount,
    date_approved := f.date_approved,
    scraped_at := now }

/-- `_extract_loan_data(item, response, index)` generalized by the
recognizer-enable function (`fun _ => true` coincides with
`pp_extract_loan_data`). -/
def pp_extract_loan_data_gen (en : FieldId → Bool) (uj : String → String → String)
    (respUrl : String) (now : String) (item : Frag) (index : Nat) : PPLoan :=
  let f := ppExtractFieldsGen en item
  { index := index + 1,
    recipient := pyStrip item.recipient_text,
    detail_url := if item.recipient_href ≠ "" then uj respUrl item.recipient_href
      else item.recipient_href,
    location := f.location,
    loan_status := f.loan_status,
    loan_amount := f.loan_amount,
    loan_amount_numeric := parse_amount f.loan_amount,
    date_approved := f.date_approved,
    scraped_at := now }

/- ### Driver loops and error ledgers -/

/-- An error-ledger entry of `parse_local_html.py` (its dicts carry
`error_type`, `message`, `timestamp`). -/
structure PError where
  error_type : String
  message : String
  timestamp : String
deriving DecidableEq, Repr

/-- The `ExtractionError` entry appended at `parse_local_html.py`
62-66. -/
def mk_extraction_err (i : Nat) (m : String) (now : String) : PError :=
  ⟨"ExtractionError", s!"Failed to extract loan {i}: {m}", now⟩

/-- The shared shape of the two `for idx, item in enumerate(loan_items)`
driver loops: each fragment is extracted inside `try`/`except`; a
successful record is kept only when `keep` holds (the
`loan_data.get('recipient')` truthiness test); an exception appends one
ledger entry built by `mkE` from the fragment's index and message, and
the loop continues with the next fragment. -/
def loop_extract {R E : Type} (ex : Frag → Nat → R) (keep : R → Bool)
    (mkE : Nat → String → E) : Nat → List FragE → List R × List E
  | _, [] => ([], [])
  | i, FragE.ok f :: rest =>
    if keep (ex f i) then
      (ex f i :: (loop_extract ex keep mkE (i + 1) rest).1,
       (loop_extract ex keep mkE (i + 1) rest).2)
    else loop_extract ex keep mkE (i + 1) rest
  | i, FragE.raises m :: rest =>
    ((loop_extract ex keep mkE (i + 1) rest).1,
     mkE i m :: (loop_extract ex keep mkE (i + 1) rest).2)

/-- The driver loop of `parse_loan_html` (`parse_local_html.py`
56-66). -/
def local_loop (now : String) : Nat → List FragE → List Loan × List PError :=
  loop_extract extract_loan_data (fun l => l.recipient ≠ "")
    (fun i m => mk_extraction_err i m now)

/-- A parsed document as seen by `parse_loan_html`: the search-box echo,
the `h1` heading, and the fragments located by the primary
(`li.list.pt3`) and fallback (`ul li.list`) boundary selectors. -/
structure Doc where
  search_query : String
  result_header : String
  primary_items : List FragE
  fallback_items : List FragE
deriving DecidableEq, Repr

/-- The boundary-location step (`parse_local_html.py` 47-54): primary
selector first, fallback only when the primary finds nothing. -/
def selectedItems (doc : Doc) : List FragE :=
  if doc.primary_items.isEmpty then doc.fallback_items else doc.primary_items

/-- The result dictionary of `parse_loan_html` (`parse_local_html.py`
68-75). -/
structure ParseResult where
  search_query : String
  result_header : String
  total_loans : Nat
  loans : List Loan
  errors : List PError
  parsed_at : String
deriving DecidableEq, Repr

/-- `parse_loan_html(html_content)` of `parse_local_html.py` 26-75, as a
function of the parsed document and the clock reading. -/
def parse_loan_html (doc : Doc) (now : String) : ParseResult :=
  { search_query := doc.search_query,
    result_header := if doc.result_header ≠ "" then pyStrip doc.result_header else "",
    total_loans := (local_loop now 0 (selectedItems doc)).1.length,
    loans := (local_loop now 0 (selectedItems doc)).1,
    errors := (local_loop now 0 (selectedItems doc)).2,
    parsed_at := now }

/-- An error-ledger entry of `propublica_scraper.py`: its dicts carry
`error_type`, `message`, `timestamp` and, depending on the origin,
`url` and `status_code`. -/
structure PPError where
  error_type : String
  message : String
  timestamp : String
  url : Option String
  status_code : Option Nat
deriving DecidableEq, Repr

/-- The `HTTPError` entry of `propublica_scraper.py` 90-96. -/
def pp_http_err (url : String) (status : Nat) (now : String) : PPError :=
  ⟨"HTTPError", s!"HTTP {status} error", now, some url, some status⟩

/-- The `NoDataFound` entry of `propublica_scraper.py` 117-122. -/
def pp_nodata_err (url : String) (now : String) : PPError :=
  ⟨"NoDataFound", "No loan entries found on page. The page structure may have changed.",
   now, some url, none⟩

/-- The `ExtractionError` entry of `propublica_scraper.py` 133-137 (no
`url` key). -/
def pp_extraction_err (i : Nat) (m : String) (now : String) : PPError :=
  ⟨"ExtractionError", s!"Failed to extract loan {i}: {m}", now, none, none⟩

/-- A response as seen by `PropublicaLoanSpider.parse`: its URL, HTTP
status, and the fragments located by the primary (`li.list.pt3`) and
fallback (`ul > li.list`) boundary selectors. -/
structure PPResponse where
  url : String
  status : Nat
  primary_items : List FragE
  fallback_items : List FragE
deriving DecidableEq, Repr

def ppSelectedItems (resp : PPResponse) : List FragE :=
  if resp.primary_items.isEmpty then resp.fallback_items else resp.primary_items

/-- The driver loop of `PropublicaLoanSpider.parse`
(`propublica_scraper.py` 125-137). -/
def pp_loop (uj : String → String → String) (respUrl now : String) :
    Nat → List FragE → List PPLoan × List PPError :=
  loop_extract (pp_extract_loan_data uj respUrl now) (fun l => l.recipient ≠ "")
    (fun i m => pp_extraction_err i m now)

/-- `PropublicaLoanSpider.parse(response)` (`propublica_scraper.py`
81-139), returning the records the generator yields together with the
entries appended to the error ledger: an HTTP status of 400 or more
records one `HTTPError` entry and stops; zero located fragments record
one `NoDataFound` entry and stop; otherwise the driver loop runs.  (The
`_extract_search_info` call at line 101 is computed and never used, so
it does not appear here.) -/
def pp_parse (uj : String → String → String) (resp : PPResponse) (now : String) :
    List PPLoan × List PPError :=
  if 400 ≤ resp.status then
    ([], [pp_http_err resp.url resp.status now])
  else if (ppSelectedItems resp).isEmpty then ([], [pp_nodata_err resp.url now])
  else pp_loop uj resp.url now 0 (ppSelectedItems resp)

/- ### Response Gate (`wordpress_scraper.py`) -/

/-- A raw response as read by the gate: status, body text, the `Server`
header (decoded, `''` when absent) and the `CF-RAY` header (`none` when
absent, mirroring `headers.get('CF-RAY', None)`). -/
structure WPResponse where
  url : String
  status : Nat
  body : String
  server_header : String
  cf_ray : Option String
deriving DecidableEq, Repr

/-- `cloudflare_indicators` of `wordpress_scraper.py` 221-228. -/
def cloudflare_indicators : List String :=
  ["cf-browser-verification", "cloudflare", "cf_clearance",
   "Checking your browser", "DDoS protection by Cloudflare", "ray ID"]

/-- The status codes treated as Cloudflare challenges
(`wordpress_scraper.py` 233). -/
def cf_status_codes : List Nat := [503, 520, 521, 522, 523, 524]

/-- `body_text = response.text.lower() if response.text else ''`. -/
def bodyLower (r : WPResponse) : String :=
  if r.body = "" then "" else pyLower r.body

/-- The fingerprint scan of `wordpress_scraper.py` 237-239. -/
def indicator_in_body (r : WPResponse) : Bool :=
  cloudflare_indicators.any (fun ind => strContains (bodyLower r) (pyLower ind))

/-- Truthiness of the `CF-RAY` header value. -/
def cfRayTruthy : Option String → Bool
  | some v => !(v = "")
  | none => false

/-- The edge-vendor header check of `wordpress_scraper.py` 242-246:
`Server` header contains `cloudflare`, a truthy `CF-RAY` header, and
status at least 400. -/
def vendor_header_match (r : WPResponse) : Bool :=
  strContains (pyLower r.server_header) "cloudflare" && cfRayTruthy r.cf_ray &&
    decide (400 ≤ r.status)

/-- `_is_cloudflare_challenge` (`wordpress_scraper.py` 219-248), checks
in source order: status code list, body fingerprints, vendor header. -/
def is_cloudflare_challenge (r : WPResponse) : Bool :=
  if r.status ∈ cf_status_codes then true
  else if indicator_in_body r then true
  else if vendor_header_match r then true
  else false

/-- The static status → (name, suggestion) table of
`_handle_http_error` (`wordpress_scraper.py` 254-267), including the
generic fallback for unknown codes. -/
def http_error_table (status : Nat) : String × String :=
  match status with
  | 400 => ("Bad Request", "The server couldn\x27t understand the request. Check URL format.")
  | 401 => ("Unauthorized", "Authentication required. The page might need login credentials.")
  | 403 => ("Forbidden", "Access denied. The server refuses to fulfill the request.")
  | 404 => ("Not Found", "The requested page doesn\x27t exist. Check if the URL is correct.")
  | 429 => ("Too Many Requests", "Rate limited. Add delays between requests.")
  | 500 => ("Internal Server Error", "Server-side error. The website might be experiencing issues.")
  | 502 => ("Bad Gateway", "The server received an invalid response. Try again later.")
  | 503 => ("Service Unavailable", "Server temporarily unavailable. Could be maintenance or overload.")
  | _ => (s!"HTTP Error {status}", "Unexpected HTTP error occurred.")

/-- The verdict of the pre-extraction gate at the top of
`WordPressSpider.parse` (`wordpress_scraper.py` 170-207): challenge
detection first, then the HTTP-error branch, then extraction. -/
inductive Verdict where
  | blockedChallenge (status : Nat)
  | blockedHttp (status : Nat) (message suggestion : String)
  | proceed
deriving DecidableEq, Repr

/-- The classification order of `WordPressSpider.parse`:
`_is_cloudflare_challenge` short-circuits first, then `status >= 400`
goes through `_handle_http_error`'s table, otherwise extraction is
attempted. -/
def wp_gate (r : WPResponse) : Verdict :=
  if is_cloudflare_challenge r then Verdict.blockedChallenge r.status
  else if 400 ≤ r.status then
    Verdict.blockedHttp r.status (http_error_table r.status).1 (http_error_table r.status).2
  else Verdict.proceed

/- ### Timestamp-erasing projections (used to state clock-independence) -/

/-- A `parse_local_html.py` ledger entry without its `timestamp`. -/
def perrContent (e : PError) : String × String := (e.error_type, e.message)

/-- A `propublica_scraper.py` record without its `scraped_at`. -/
def ppLoanContent (l : PPLoan) :
    Nat × String × String × String × String × String × Option Rat × String :=
  (l.index, l.recipient, l.detail_url, l.location, l.loan_status, l.loan_amount,
   l.loan_amount_numeric, l.date_approved)

/-- A `propublica_scraper.py` ledger entry without its `timestamp`. -/
def ppErrContent (e : PPError) : String × String × Option String × Option Nat :=
  (e.error_type, e.message, e.url, e.status_code)

/- ### Concrete inputs used by counterexamples and witnesses -/

/-- A fragment with two `Location`-labelled blocks — the second one with
no value div — and one location-shaped loose text node. -/
def cexFrag1 : Frag :=
  ⟨"Acme Corp", "", [⟨"Location", "Austin, TX"⟩, ⟨"Location", ""⟩], ["Springfield, IL"]⟩

/-- A fragment whose location and loan amount resolve structurally but
whose loan status does not, while a status-keyword text node is
present. -/
def cexFrag2 : Frag :=
  ⟨"B Corp", "", [⟨"Location", "Austin, TX"⟩, ⟨"Loan Amount", "$5"⟩], ["Forgiven"]⟩

/-- A fragment with a structurally resolved location. -/
def witFragStruct : Frag := ⟨"W Corp", "", [⟨"Location", "Austin, TX"⟩], ["$9"]⟩

/-- A 404 response whose body carries a challenge fingerprint. -/
def cexResp404cf : WPResponse := ⟨"u", 404, "cloudflare", "", none⟩

def witResp503 : WPResponse := ⟨"u", 503, "ordinary body", "nginx", none⟩

def witResp404 : WPResponse := ⟨"u", 404, "<html>hello</html>", "nginx", none⟩

def witResp200 : WPResponse := ⟨"u", 200, "<html>ordinary</html>", "nginx", none⟩

/-- A fragment with nothing but a two-segment location-shaped value
whose second segment is longer than a region code. -/
def cexFrag6 : Frag := ⟨"R Corp", "", [], ["Some Place, Texas"]⟩

def fragA : Frag := ⟨"A", "", [], []⟩

/-- A fragment whose recipient link text is empty. -/
def fragB : Frag := ⟨"", "", [], []⟩

def fragC : Frag := ⟨"C", "", [], []⟩

/-- A document with a real record, an identity-less fragment, then
another real record. -/
def exDoc : Doc := ⟨"q", "h", [FragE.ok fragA, FragE.ok fragB, FragE.ok fragC], []⟩

def exLoanA : Loan := extract_loan_data fragA 0

/-- A document with one raising fragment. -/
def docRaise : Doc := ⟨"q", "h", [FragE.raises "boom"], []⟩

/- ### Generic lemmas about the driver loop -/

theorem loop_extract_nil {R E : Type} (ex : Frag → Nat → R) (keep : R → Bool)
    (mkE : Nat → String → E) (i : Nat) :
    loop_extract ex keep mkE i [] = ([], []) := rfl

theorem loop_extract_append {R E : Type} (ex : Frag → Nat → R) (keep : R → Bool)
    (mkE : Nat → String → E) (xs ys : List FragE) :
    ∀ i : Nat, loop_extract ex keep mkE i (xs ++ ys) =
      ((loop_extract ex keep mkE i xs).1 ++
         (loop_extract ex keep mkE (i + xs.length) ys).1,
       (loop_extract ex keep mkE i xs).2 ++
         (loop_extract ex keep mkE (i + xs.length) ys).2) := by
  induction xs with
  | nil => intro i; simp [loop_extract]
  | cons hd tl ih =>
    intro i
    have harith : i + (tl.length + 1) = i + 1 + tl.length := by omega
    cases hd with
    | ok f =>
      by_cases hk : keep (ex f i) = true
      · simp [loop_extract, hk, ih (i + 1), harith]
      · simp [loop_extract, hk, ih (i + 1), harith]
    | raises m =>
      simp [loop_extract, ih (i + 1), harith]

theorem loop_extract_mem_fst {R E : Type} (ex : Frag → Nat → R) (keep : R → Bool)
    (mkE : Nat → String → E) :
    ∀ (xs : List FragE) (i : Nat) (r : R), r ∈ (loop_extract ex keep mkE i xs).1 →
      ∃ j f, xs[j]? = some (FragE.ok f) ∧ r = ex f (i + j) ∧ keep r = true := by
  intro xs
  induction xs with
  | nil => intro i r hr; simp [loop_extract] at hr
  | cons hd tl ih =>
    intro i r hr
    cases hd with
    | ok f =>
      by_cases hk : keep (ex f i) = true
      · rw [loop_extract, if_pos hk] at hr
        rcases List.mem_cons.mp hr with h | h
        · exact ⟨0, f, by simp, by simpa using h, by rw [h]; exact hk⟩
        · obtain ⟨j, f2, hj, hr2, hkr⟩ := ih (i + 1) r h
          exact ⟨j + 1, f2, by simpa using hj,
            by rw [hr2]; congr 1; omega, hkr⟩
      · rw [loop_extract, if_neg hk] at hr
        obtain ⟨j, f2, hj, hr2, hkr⟩ := ih (i + 1) r hr
        exact ⟨j + 1, f2, by simpa using hj, by rw [hr2]; congr 1; omega, hkr⟩
    | raises m =>
      rw [loop_extract] at hr
      obtain ⟨j, f2, hj, hr2, hkr⟩ := ih (i + 1) r hr
      exact ⟨j + 1, f2, by simpa using hj, by rw [hr2]; congr 1; omega, hkr⟩

theorem loop_extract_pairwise {R E : Type} (ex : Frag → Nat → R) (keep : R → Bool)
    (mkE : Nat → String → E) (idx : R → Nat) (hidx : ∀ f i, idx (ex f i) = i + 1) :
    ∀ (xs : List FragE) (i : Nat),
      ((loop_extract ex keep mkE i xs).1.map idx).Pairwise (· < ·) := by
  intro xs
  induction xs with
  | nil => intro i; simp [loop_extract]
  | cons hd tl ih =>
    intro i
    cases hd with
    | ok f =>
      by_cases hk : keep (ex f i) = true
      · rw [loop_extract, if_pos hk]
        simp only [List.map_cons]
        refine List.Pairwise.cons ?_ (ih (i + 1))
        intro b hb
        simp only [List.mem_map] at hb
        obtain ⟨r, hr, hb2⟩ := hb
        obtain ⟨j, f2, _, hr2, _⟩ := loop_extract_mem_fst ex keep mkE tl (i + 1) r hr
        rw [hidx, ← hb2, hr2, hidx]
        omega
      · rw [loop_extract, if_neg hk]; exact ih (i + 1)
    | raises m => rw [loop_extract]; exact ih (i + 1)

theorem loop_extract_map_eq {R₁ E₁ R₂ E₂ S T : Type}
    (ex₁ : Frag → Nat → R₁) (keep₁ : R₁ → Bool) (mkE₁ : Nat → String → E₁)
    (ex₂ : Frag → Nat → R₂) (keep₂ : R₂ → Bool) (mkE₂ : Nat → String → E₂)
    (p₁ : R₁ → S) (p₂ : R₂ → S) (q₁ : E₁ → T) (q₂ : E₂ → T)
    (hex : ∀ f i, p₁ (ex₁ f i) = p₂ (ex₂ f i))
    (hkeep : ∀ f i, keep₁ (ex₁ f i) = keep₂ (ex₂ f i))
    (hq : ∀ i m, q₁ (mkE₁ i m) = q₂ (mkE₂ i m)) :
    ∀ (xs : List FragE) (i : Nat),
      (loop_extract ex₁ keep₁ mkE₁ i xs).1.map p₁ =
        (loop_extract ex₂ keep₂ mkE₂ i xs).1.map p₂ ∧
      (loop_extract ex₁ keep₁ mkE₁ i xs).2.map q₁ =
        (loop_extract ex₂ keep₂ mkE₂ i xs).2.map q₂ := by
  intro xs
  induction xs with
  | nil => intro i; simp [loop_extract]
  | cons hd tl ih =>
    intro i
    cases hd with
    | ok f =>
      by_cases hk : keep₁ (ex₁ f i) = true
      · have hk2 : keep₂ (ex₂ f i) = true := by rw [← hkeep]; exact hk
        rw [loop_extract, if_pos hk, loop_extract, if_pos hk2]
        exact ⟨by simp [hex f i, (ih (i + 1)).1], (ih (i + 1)).2⟩
      · have hk2 : keep₂ (ex₂ f i) = false := by rw [← hkeep]; simpa using hk
        rw [loop_extract, if_neg hk, loop_extract, if_neg (by simp [hk2])]
        exact ih (i + 1)
    | raises m =>
      rw [loop_extract, loop_extract]
      exact ⟨(ih (i + 1)).1, by simp [hq i m, (ih (i + 1)).2]⟩

/-- Splitting the loop around one raising fragment: everything before
is processed, exactly one ledger entry is appended for the raising
fragment's index, and everything after is processed too. -/
theorem loop_extract_raises_middle {R E : Type} (ex : Frag → Nat → R) (keep : R → Bool)
    (mkE : Nat → String → E) (pre post : List FragE) (m : String) :
    loop_extract ex keep mkE 0 (pre ++ FragE.raises m :: post) =
      ((loop_extract ex keep mkE 0 pre).1 ++
         (loop_extract ex keep mkE (pre.length + 1) post).1,
       (loop_extract ex keep mkE 0 pre).2 ++
         mkE pre.length m :: (loop_extract ex keep mkE (pre.length + 1) post).2) := by
  rw [loop_extract_append]
  simp [loop_extract]

/-- Splitting the loop around one fragment whose record is not kept:
it contributes neither a record nor a ledger entry. -/
theorem loop_extract_dropped_middle {R E : Type} (ex : Frag → Nat → R) (keep : R → Bool)
    (mkE : Nat → String → E) (pre post : List FragE) (f : Frag)
    (hk : keep (ex f pre.length) = false) :
    loop_extract ex keep mkE 0 (pre ++ FragE.ok f :: post) =
      ((loop_extract ex keep mkE 0 pre).1 ++
         (loop_extract ex keep mkE (pre.length + 1) post).1,
       (loop_extract ex keep mkE 0 pre).2 ++
         (loop_extract ex keep mkE (pre.length + 1) post).2) := by
  rw [loop_extract_append]
  simp [loop_extract, hk]

/- ### Lemmas about the heuristic tier -/

/-- One heuristic iteration never changes a field that is already
non-empty. -/
theorem heurStepGen_preserve (en : FieldId → Bool) (f : Fields) (val : String)
    (d : FieldId) (h : getF d f ≠ "") :
    getF d (heurStepGen en f val) = getF d f := by
  cases d <;> simp only [getF] at h ⊢ <;>
    (unfold heurStepGen; split_ifs <;> simp_all [getF])

theorem heurFoldGen_preserve (en : FieldId → Bool) (d : FieldId) :
    ∀ (vals : List String) (f : Fields), getF d f ≠ "" →
      getF d (List.foldl (heurStepGen en) f vals) = getF d f := by
  intro vals
  induction vals with
  | nil => intro f h; rfl
  | cons v vs ih =>
    intro f h
    rw [List.foldl_cons, ih _ (by rw [heurStepGen_preserve en f v d h]; exact h),
      heurStepGen_preserve en f v d h]

/-- Disabling the recognizer of a field that is already non-empty does
not change one heuristic iteration: that branch's guard is false
anyway. -/
theorem heurStepGen_congr (en₁ en₂ : FieldId → Bool) (d : FieldId) (f : Fields)
    (val : String) (hen : ∀ x, x ≠ d → en₁ x = en₂ x) (h : getF d f ≠ "") :
    heurStepGen en₁ f val = heurStepGen en₂ f val := by
  cases d
  case loc =>
    have e1 := hen FieldId.status (by decide)
    have e2 := hen FieldId.amt (by decide)
    have e3 := hen FieldId.date (by decide)
    simp only [getF] at h
    simp only [heurStepGen, e1, e2, e3]
    simp [h]
  case status =>
    have e1 := hen FieldId.loc (by decide)
    have e2 := hen FieldId.amt (by decide)
    have e3 := hen FieldId.date (by decide)
    simp only [getF] at h
    simp only [heurStepGen, e1, e2, e3]
    simp [h]
  case amt =>
    have e1 := hen FieldId.loc (by decide)
    have e2 := hen FieldId.status (by decide)
    have e3 := hen FieldId.date (by decide)
    simp only [getF] at h
    simp only [heurStepGen, e1, e2, e3]
    simp [h]
  case date =>
    have e1 := hen FieldId.loc (by decide)
    have e2 := hen FieldId.status (by decide)
    have e3 := hen FieldId.amt (by decide)
    simp only [getF] at h
    simp only [heurStepGen, e1, e2, e3]
    simp [h]

theorem heurFoldGen_congr (en₁ en₂ : FieldId → Bool) (d : FieldId)
    (hen : ∀ x, x ≠ d → en₁ x = en₂ x) :
    ∀ (vals : List String) (f : Fields), getF d f ≠ "" →
      List.foldl (heurStepGen en₁) f vals = List.foldl (heurStepGen en₂) f vals := by
  intro vals
  induction vals with
  | nil => intro f _; rfl
  | cons v vs ih =>
    intro f h
    rw [List.foldl_cons, List.foldl_cons, heurStepGen_congr en₁ en₂ d f v hen h,
      ih _ (by rw [heurStepGen_preserve en₂ f v d h]; exact h)]

/-- The propublica heuristic iteration also never changes a non-empty
field. -/
theorem ppHeurStep_preserve (f : Fields) (val : String) (d : FieldId)
    (h : getF d f ≠ "") : getF d (ppHeurStep f val) = getF d f := by
  cases d <;> simp only [getF] at h ⊢ <;>
    (unfold ppHeurStep; split_ifs <;> simp_all [getF])

theorem ppHeurFold_preserve (d : FieldId) :
    ∀ (vals : List String) (f : Fields), getF d f ≠ "" →
      getF d (List.foldl ppHeurStep f vals) = getF d f := by
  intro vals
  induction vals with
  | nil => intro f h; rfl
  | cons v vs ih =>
    intro f h
    rw [List.foldl_cons, ih _ (by rw [ppHeurStep_preserve f v d h]; exact h),
      ppHeurStep_preserve f v d h]

/- ### Lemmas about the two-tier field extraction -/

theorem extractFieldsGen_getF (en : FieldId → Bool) (item : Frag) (d : FieldId)
    (h : getF d (structPass item.blocks) ≠ "") :
    getF d (extractFieldsGen en item) = getF d (structPass item.blocks) := by
  unfold extractFieldsGen
  split
  · exact heurFoldGen_preserve en d (allValues item) (structPass item.blocks) h
  · rfl

theorem extractFieldsGen_congr (d : FieldId) (item : Frag)
    (h : getF d (structPass item.blocks) ≠ "") :
    extractFieldsGen (fun x => decide (x ≠ d)) item = extractFieldsGen (fun _ => true) item := by
  unfold extractFieldsGen
  split
  · exact heurFoldGen_congr _ _ d (fun x hx => by simp [hx]) (allValues item)
      (structPass item.blocks) h
  · rfl

/- ### Lemmas about the location recognizers -/

theorem pySplitChar_ne_nil (sep : Char) : ∀ cs : List Char, pySplitChar sep cs ≠ [] := by
  intro cs
  induction cs with
  | nil => simp [pySplitChar]
  | cons c rest ih =>
    unfold pySplitChar
    cases hsplit : pySplitChar sep rest with
    | nil => simp
    | cons g gs => split_ifs <;> simp

theorem pySplitChar_two_le (sep : Char) :
    ∀ cs : List Char, 2 ≤ (pySplitChar sep cs).length ↔ sep ∈ cs := by
  intro cs
  induction cs with
  | nil => simp [pySplitChar]
  | cons c rest ih =>
    unfold pySplitChar
    cases hsplit : pySplitChar sep rest with
    | nil => exact absurd hsplit (pySplitChar_ne_nil sep rest)
    | cons g gs =>
      rw [hsplit] at ih
      by_cases hc : c = sep
      · simp [hc]
      · simp only [if_neg hc, List.length_cons] at ih ⊢
        rw [List.mem_cons]
        constructor
        · intro h; exact Or.inr (ih.mp (by omega))
        · intro h
          rcases h with h | h
          · exact absurd h.symm hc
          · have := ih.mpr h; omega

theorem strContainsAux_singleton (a : Char) :
    ∀ cs : List Char, strContainsAux [a] cs = true ↔ a ∈ cs := by
  intro cs
  induction cs with
  | nil => simp [strContainsAux]
  | cons c rest ih =>
    simp only [strContainsAux, List.isPrefixOf, Bool.and_true, Bool.or_eq_true,
      beq_iff_eq, List.mem_cons, ih]

/-- The explicit comma-containment conjunct of the
`parse_local_html.py` recognizer is redundant: two split segments
already force a comma. -/
theorem loc_recognizer_eq (val : String) :
    loc_recognizer val =
      (decide ((pySplitChar ',' val.toList).length = 2) &&
       decide ((pyStripL ((pySplitChar ',' val.toList).getD 1 [])).length = 2)) := by
  unfold loc_recognizer
  by_cases h2 : (pySplitChar ',' val.data).length = 2
  · have hmem : ',' ∈ val.data := (pySplitChar_two_le ',' val.data).mp (by omega)
    have hc : strContains val "," = true :=
      (strContainsAux_singleton ',' val.data).mpr hmem
    simp [hc, h2]
  · simp [h2]

/-- The location slot after one heuristic iteration on empty fields, in
the `parse_local_html.py` variant: exactly the recognizer's verdict. -/
theorem heurStep_empty_location (val : String) :
    (heurStep emptyFields val).location = if loc_recognizer val then val else "" := by
  unfold heurStep heurStepGen
  by_cases h1 : strContains val "," = true <;>
    by_cases h2 : (pySplitChar ',' val.data).length = 2 <;>
      by_cases h3 : (pyStripL ((pySplitChar ',' val.data).getD 1 [])).length = 2 <;>
        simp [loc_recognizer, emptyFields, h1, h2, h3] <;> split_ifs <;> rfl

/-- The location slot after one heuristic iteration on empty fields, in
the `propublica_scraper.py` variant: any two-segment value is taken. -/
theorem ppHeurStep_empty_location (val : String) :
    (ppHeurStep emptyFields val).location = if pp_loc_recognizer val then val else "" := by
  unfold ppHeurStep
  by_cases h1 : strContains val "," = true <;>
    by_cases h2 : (pySplitChar ',' val.data).length = 2 <;>
      simp [pp_loc_recognizer, emptyFields, h1, h2] <;> split_ifs <;> rfl

/- ### Lemmas about the propublica generalized heuristic tier -/

/-- At `fun _ => true` the generalized propublica heuristic iteration
is the source iteration. -/
theorem ppHeurStepGen_true : ppHeurStepGen (fun _ => true) = ppHeurStep := by
  funext f val
  simp [ppHeurStepGen, ppHeurStep]

theorem ppHeurStepGen_preserve (en : FieldId → Bool) (f : Fields) (val : String)
    (d : FieldId) (h : getF d f ≠ "") :
    getF d (ppHeurStepGen en f val) = getF d f := by
  cases d <;> simp only [getF] at h ⊢ <;>
    (unfold ppHeurStepGen; split_ifs <;> simp_all [getF])

theorem ppHeurFoldGen_preserve (en : FieldId → Bool) (d : FieldId) :
    ∀ (vals : List String) (f : Fields), getF d f ≠ "" →
      getF d (List.foldl (ppHeurStepGen en) f vals) = getF d f := by
  intro vals
  induction vals with
  | nil => intro f h; rfl
  | cons v vs ih =>
    intro f h
    rw [List.foldl_cons, ih _ (by rw [ppHeurStepGen_preserve en f v d h]; exact h),
      ppHeurStepGen_preserve en f v d h]

/-- Disabling the recognizer of a field that is already non-empty does
not change one propublica heuristic iteration. -/
theorem ppHeurStepGen_congr (en₁ en₂ : FieldId → Bool) (d : FieldId) (f : Fields)
    (val : String) (hen : ∀ x, x ≠ d → en₁ x = en₂ x) (h : getF d f ≠ "") :
    ppHeurStepGen en₁ f val = ppHeurStepGen en₂ f val := by
  cases d
  case loc =>
    have e1 := hen FieldId.status (by decide)
    have e2 := hen FieldId.amt (by decide)
    have e3 := hen FieldId.date (by decide)
    simp only [getF] at h
    simp only [ppHeurStepGen, e1, e2, e3]
    simp [h]
  case status =>
    have e1 := hen FieldId.loc (by decide)
    have e2 := hen FieldId.amt (by decide)
    have e3 := hen FieldId.date (by decide)
    simp only [getF] at h
    simp only [ppHeurStepGen, e1, e2, e3]
    simp [h]
  case amt =>
    have e1 := hen FieldId.loc (by decide)
    have e2 := hen FieldId.status (by decide)
    have e3 := hen FieldId.date (by decide)
    simp only [getF] at h
    simp only [ppHeurStepGen, e1, e2, e3]
    simp [h]
  case date =>
    have e1 := hen FieldId.loc (by decide)
    have e2 := hen FieldId.status (by decide)
    have e3 := hen FieldId.amt (by decide)
    simp only [getF] at h
    simp only [ppHeurStepGen, e1, e2, e3]
    simp [h]

theorem ppHeurFoldGen_congr (en₁ en₂ : FieldId → Bool) (d : FieldId)
    (hen : ∀ x, x ≠ d → en₁ x = en₂ x) :
    ∀ (vals : List String) (f : Fields), getF d f ≠ "" →
      List.foldl (ppHeurStepGen en₁) f vals = List.foldl (ppHeurStepGen en₂) f vals := by
  intro vals
  induction vals with
  | nil => intro f _; rfl
  | cons v vs ih =>
    intro f h
    rw [List.foldl_cons, List.foldl_cons, ppHeurStepGen_congr en₁ en₂ d f v hen h,
      ih _ (by rw [ppHeurStepGen_preserve en₂ f v d h]; exact h)]

theorem ppExtractFieldsGen_congr (d : FieldId) (item : Frag)
    (h : getF d (structPass item.blocks) ≠ "") :
    ppExtractFieldsGen (fun x => decide (x ≠ d)) item = ppExtractFields item := by
  unfold ppExtractFieldsGen ppExtractFields
  split
  · rw [ppHeurFoldGen_congr (fun x => decide (x ≠ d)) (fun _ => true) d
      (fun x hx => by simp [hx]) (allValues item) (structPass item.blocks) h,
      ppHeurStepGen_true]
  · rfl

/- ### Claim C1 -/

/-- C1, counterexample.  The claim says: if any structural lookup path
yields a non-empty value, that first non-empty structural result is the
field's extracted value and the heuristic result is never used for that
field, and disabling the heuristic recognizer does not change the
output.  In `extract_loan_data` this fails: in `cexFrag1` the first
`Location` block structurally yields "Austin, TX" (shown on the
one-block prefix), but a second `Location`-labelled block with no value
div overwrites the slot with `''`; the heuristic scan then fires and the
extracted location is the heuristic value "Springfield, IL", and
disabling the location recognizer changes the output to `''`. -/
theorem C1_counterexample :
    cexFrag1.blocks.take 1 = [Block.mk "Location" "Austin, TX"] ∧
    (structPass (cexFrag1.blocks.take 1)).location = "Austin, TX" ∧
    (structPass cexFrag1.blocks).location = "" ∧
    (extract_loan_data cexFrag1 0).location = "Springfield, IL" ∧
    (extract_loan_data_gen (fun x => decide (x ≠ FieldId.loc)) cexFrag1 0).location = "" := by
  decide

/-- C1, amended: in both scraper variants the structural value that
wins is the **last** assignment of the label-matched block loop (a
later block can overwrite an earlier non-empty value, even with an
empty one).  For every field whose final structural result is
non-empty, that value is the field's extracted value both in
`extract_loan_data` (`parse_local_html.py`) and in `_extract_loan_data`
(`propublica_scraper.py`), the heuristic result is never used for it,
and disabling that field's heuristic recognizer changes neither
variant's extracted record. -/
theorem C1_amended (item : Frag) (i : Nat) (d : FieldId)
    (h : getF d (structPass item.blocks) ≠ "") :
    (getF d (extractFields item) = getF d (structPass item.blocks) ∧
     extract_loan_data_gen (fun x => decide (x ≠ d)) item i = extract_loan_data item i) ∧
    (∀ (uj : String → String → String) (respUrl now : String),
      getF d (ppExtractFields item) = getF d (structPass item.blocks) ∧
      pp_extract_loan_data_gen (fun x => decide (x ≠ d)) uj respUrl now item i =
        pp_extract_loan_data uj respUrl now item i) := by
  refine ⟨⟨?_, ?_⟩, ?_⟩
  · exact extractFieldsGen_getF (fun _ => true) item d h
  · simp only [extract_loan_data, extract_loan_data_gen, extractFieldsGen_congr d item h]
  · intro uj respUrl now
    constructor
    · unfold ppExtractFields
      split
      · exact ppHeurFold_preserve d (allValues item) (structPass item.blocks) h
      · rfl
    · simp only [pp_extract_loan_data, pp_extract_loan_data_gen,
        ppExtractFieldsGen_congr d item h]

/-- C1, witness: the amended theorem applied at a fragment whose
location is structurally resolved, for both scraper variants. -/
theorem C1_witness :
    getF FieldId.loc (structPass witFragStruct.blocks) ≠ "" ∧
    ((getF FieldId.loc (extractFields witFragStruct) =
        getF FieldId.loc (structPass witFragStruct.blocks) ∧
      extract_loan_data_gen (fun x => decide (x ≠ FieldId.loc)) witFragStruct 0 =
        extract_loan_data witFragStruct 0) ∧
     (getF FieldId.loc (ppExtractFields witFragStruct) =
        getF FieldId.loc (structPass witFragStruct.blocks) ∧
      pp_extract_loan_data_gen (fun x => decide (x ≠ FieldId.loc)) (fun _ r => r) "u" "t"
          witFragStruct 0 =
        pp_extract_loan_data (fun _ r => r) "u" "t" witFragStruct 0)) :=
  ⟨by decide,
   ⟨( C1_amended witFragStruct 0 FieldId.loc (by decide)).1,
    ( C1_amended witFragStruct 0 FieldId.loc (by decide)).2 (fun _ r => r) "u" "t"⟩⟩

/- ### Claim C2 -/

/-- C2, counterexample.  The claim says the heuristic scan runs for a
field whenever that field's own structural result is empty.  In
`cexFrag2` the loan-status structural result is empty and the scan,
had it run, would assign the present keyword value "Forgiven" — but in
both scraper variants the scan is skipped because location and loan
amount are structurally filled, and the extracted loan status stays
empty. -/
theorem C2_counterexample :
    (structPass cexFrag2.blocks).loan_status = "" ∧
    (List.foldl heurStep (structPass cexFrag2.blocks) (allValues cexFrag2)).loan_status =
      "Forgiven" ∧
    (extract_loan_data cexFrag2 0).loan_status = "" ∧
    (pp_extract_loan_data (fun _ r => r) "u" "t" cexFrag2 0).loan_status = "" := by
  decide

/-- C2, amended: the heuristic fallback trigger is fragment-level, not
per-field.  In `parse_local_html.py` the scan over the value-shaped
text nodes runs iff the location or the loan amount is structurally
empty; in `propublica_scraper.py` iff both are.  When it runs it
processes all four heuristic fields in one pass, and a field that is
already non-empty is never reassigned by either variant's scan. -/
theorem C2_amended (item : Frag) :
    ((structPass item.blocks).location = "" ∨ (structPass item.blocks).loan_amount = "" →
      extractFields item =
        List.foldl heurStep (structPass item.blocks) (allValues item)) ∧
    (¬((structPass item.blocks).location = "" ∨ (structPass item.blocks).loan_amount = "") →
      extractFields item = structPass item.blocks) ∧
    ((structPass item.blocks).location = "" ∧ (structPass item.blocks).loan_amount = "" →
      ppExtractFields item =
        List.foldl ppHeurStep (structPass item.blocks) (allValues item)) ∧
    (¬((structPass item.blocks).location = "" ∧ (structPass item.blocks).loan_amount = "") →
      ppExtractFields item = structPass item.blocks) ∧
    (∀ (d : FieldId) (f : Fields) (vals : List String), getF d f ≠ "" →
      getF d (List.foldl heurStep f vals) = getF d f ∧
      getF d (List.foldl ppHeurStep f vals) = getF d f) := by
  refine ⟨?_, ?_, ?_, ?_, ?_⟩
  · intro h; unfold extractFields extractFieldsGen; rw [if_pos h]; exact rfl
  · intro h; unfold extractFields extractFieldsGen; rw [if_neg h]
  · intro h; unfold ppExtractFields; rw [if_pos h]
  · intro h; unfold ppExtractFields; rw [if_neg h]
  · intro d f vals h
    exact ⟨heurFoldGen_preserve (fun _ => true) d vals f h, ppHeurFold_preserve d vals f h⟩

/-- C2, witness: the amended theorem applied at `cexFrag2`, whose
location and loan amount are both structurally filled, so the scan is
skipped. -/
theorem C2_witness :
    ¬((structPass cexFrag2.blocks).location = "" ∨
      (structPass cexFrag2.blocks).loan_amount = "") ∧
    extractFields cexFrag2 = structPass cexFrag2.blocks :=
  ⟨by decide, (C2_amended cexFrag2).2.1 (by decide)⟩

/- ### Claim C3 -/

/-- C3, counterexample.  The claim says a status code of 404 yields
`Blocked(HTTPError 404)` with the canonical "Not Found" message.  A 404
response whose body contains a challenge fingerprint is instead
classified as an anti-bot challenge, because the fingerprint check runs
before the HTTP-error branch. -/
theorem C3_counterexample :
    wp_gate cexResp404cf = Verdict.blockedChallenge 404 ∧
    wp_gate cexResp404cf ≠ Verdict.blockedHttp 404 "Not Found"
      "The requested page doesn\x27t exist. Check if the URL is correct." := by
  decide

/-- C3, amended: the gate classifies in source order: a status of 503
yields `Blocked(AntiBotChallenge)` regardless of body; a status of 404
**with an ordinary body** (no challenge fingerprint, no edge-vendor
header match) yields `Blocked(HTTPError 404)` with the canonical
"Not Found" message and suggestion from the static table; a status of
200 with an ordinary body yields `Proceed`, so extraction is
attempted. -/
theorem C3_amended (r : WPResponse) :
    (r.status = 503 → wp_gate r = Verdict.blockedChallenge 503) ∧
    (r.status = 404 → indicator_in_body r = false → vendor_header_match r = false →
      wp_gate r = Verdict.blockedHttp 404 "Not Found"
        "The requested page doesn\x27t exist. Check if the URL is correct.") ∧
    (r.status = 200 → indicator_in_body r = false → vendor_header_match r = false →
      wp_gate r = Verdict.proceed) := by
  refine ⟨?_, ?_, ?_⟩
  · intro h
    have hch : is_cloudflare_challenge r = true := by
      simp [is_cloudflare_challenge, cf_status_codes, h]
    simp only [wp_gate, hch, h]
    decide
  · intro h hi hv
    have hch : is_cloudflare_challenge r = false := by
      simp [is_cloudflare_challenge, cf_status_codes, h, hi, hv]
    simp only [wp_gate, hch, h]
    decide
  · intro h hi hv
    have hch : is_cloudflare_challenge r = false := by
      simp [is_cloudflare_challenge, cf_status_codes, h, hi, hv]
    simp only [wp_gate, hch, h]
    decide

/-- C3, witness: the amended theorem applied at three concrete
responses: a 503, an ordinary-body 404 and an ordinary-body 200. -/
theorem C3_witness :
    (witResp503.status = 503 ∧ wp_gate witResp503 = Verdict.blockedChallenge 503) ∧
    (witResp404.status = 404 ∧ indicator_in_body witResp404 = false ∧
      vendor_header_match witResp404 = false ∧
      wp_gate witResp404 = Verdict.blockedHttp 404 "Not Found"
        "The requested page doesn\x27t exist. Check if the URL is correct.") ∧
    (witResp200.status = 200 ∧ indicator_in_body witResp200 = false ∧
      vendor_header_match witResp200 = false ∧ wp_gate witResp200 = Verdict.proceed) :=
  ⟨⟨rfl, (C3_amended witResp503).1 rfl⟩,
   ⟨rfl, by decide, by decide, (C3_amended witResp404).2.1 rfl (by decide) (by decide)⟩,
   ⟨rfl, by decide, by decide, (C3_amended witResp200).2.2 rfl (by decide) (by decide)⟩⟩

/- ### Claim C6 -/

/-- C6, counterexample.  The claim says the heuristic location
recognizer rejects "Some Place, Texas" (second segment longer than 2).
That holds only for the `parse_local_html.py` variant: the
`propublica_scraper.py` heuristic has no region-length test and assigns
"Some Place, Texas" as the location. -/
theorem C6_counterexample :
    pp_loc_recognizer "Some Place, Texas" = true ∧
    (pp_extract_loan_data (fun _ r => r) "u" "t" cexFrag6 0).location =
      "Some Place, Texas" := by
  decide

/-- C6, amended: the `parse_local_html.py` location recognizer accepts
a value exactly when it splits on ',' into exactly two segments and the
second segment, trimmed, has length 2 — so "Austin, TX" is accepted and
"Some Place, Texas" is not — and it is exactly what decides the
location slot of one heuristic iteration on empty fields.  The
`propublica_scraper.py` variant omits the length test: its recognizer
accepts any two-segment value, including "Some Place, Texas". -/
theorem C6_amended :
    (∀ val : String, loc_recognizer val =
      (decide ((pySplitChar ',' val.toList).length = 2) &&
       decide ((pyStripL ((pySplitChar ',' val.toList).getD 1 [])).length = 2))) ∧
    (∀ val : String, (heurStep emptyFields val).location =
      if loc_recognizer val then val else "") ∧
    (∀ val : String, (ppHeurStep emptyFields val).location =
      if pp_loc_recognizer val then val else "") ∧
    loc_recognizer "Austin, TX" = true ∧
    loc_recognizer "Some Place, Texas" = false ∧
    pp_loc_recognizer "Some Place, Texas" = true :=
  ⟨loc_recognizer_eq, heurStep_empty_location, ppHeurStep_empty_location,
   by decide, by decide, by decide⟩

/- ### Claim C7 -/

/-- C7: the amount normalizer strips the currency symbol, thousands
separators and whitespace and parses a decimal number, returning no
value rather than raising on any parse failure:
`parse_amount "$1,234,567.00"` is `1234567`, the empty string and
`"N/A"` give no value, and — totality of the embedded function standing
for "never raises" — every input yields either no value or some
value. -/
theorem C7_theorem :
    parse_amount "$1,234,567.00" = some (1234567 : Rat) ∧
    parse_amount "" = none ∧
    parse_amount "N/A" = none ∧
    ∀ s : String, parse_amount s = none ∨ ∃ q : Rat, parse_amount s = some q := by
  refine ⟨?_, by decide, by decide, ?_⟩
  · rw [show parse_amount "$1,234,567.00" =
        some (((1234567 : Nat) : Rat) + ((0 : Nat) : Rat) / (10 : Rat) ^ (2 : Nat)) from rfl]
    norm_num
  · intro s
    cases h : parse_amount s with
    | none => exact Or.inl rfl
    | some q => exact Or.inr ⟨q, rfl⟩

/- ### Bridge lemmas for the two parse drivers -/

theorem parse_loan_html_loans (doc : Doc) (now : String) :
    (parse_loan_html doc now).loans = (local_loop now 0 (selectedItems doc)).1 := rfl

theorem parse_loan_html_errors (doc : Doc) (now : String) :
    (parse_loan_html doc now).errors = (local_loop now 0 (selectedItems doc)).2 := rfl

theorem append_cons_isEmpty (pre : List FragE) (y : FragE) (post : List FragE) :
    (pre ++ y :: post).isEmpty = false := by cases pre <;> rfl

theorem selectedItems_mid (q h : String) (fb pre post : List FragE) (y : FragE) :
    selectedItems ⟨q, h, pre ++ y :: post, fb⟩ = pre ++ y :: post := by
  simp [selectedItems, append_cons_isEmpty]

theorem ppSelectedItems_mid (url : String) (st : Nat) (fb pre post : List FragE) (y : FragE) :
    ppSelectedItems ⟨url, st, pre ++ y :: post, fb⟩ = pre ++ y :: post := by
  simp [ppSelectedItems, append_cons_isEmpty]

theorem pp_parse_run (uj : String → String → String) (url : String) (st : Nat)
    (fb pre post : List FragE) (y : FragE) (now : String) (hst : st < 400) :
    pp_parse uj ⟨url, st, pre ++ y :: post, fb⟩ now =
      pp_loop uj url now 0 (pre ++ y :: post) := by
  simp [pp_parse, ppSelectedItems_mid, append_cons_isEmpty, Nat.not_le.mpr hst]

theorem local_loop_raises_middle (now : String) (pre post : List FragE) (m : String) :
    local_loop now 0 (pre ++ FragE.raises m :: post) =
      ((local_loop now 0 pre).1 ++ (local_loop now (pre.length + 1) post).1,
       (local_loop now 0 pre).2 ++ mk_extraction_err pre.length m now ::
         (local_loop now (pre.length + 1) post).2) :=
  loop_extract_raises_middle _ _ _ pre post m

theorem pp_loop_raises_middle (uj : String → String → String) (url now : String)
    (pre post : List FragE) (m : String) :
    pp_loop uj url now 0 (pre ++ FragE.raises m :: post) =
      ((pp_loop uj url now 0 pre).1 ++ (pp_loop uj url now (pre.length + 1) post).1,
       (pp_loop uj url now 0 pre).2 ++ pp_extraction_err pre.length m now ::
         (pp_loop uj url now (pre.length + 1) post).2) :=
  loop_extract_raises_middle _ _ _ pre post m

theorem local_loop_dropped_middle (now : String) (pre post : List FragE) (f : Frag)
    (hrec : pyStrip f.recipient_text = "") :
    local_loop now 0 (pre ++ FragE.ok f :: post) =
      ((local_loop now 0 pre).1 ++ (local_loop now (pre.length + 1) post).1,
       (local_loop now 0 pre).2 ++ (local_loop now (pre.length + 1) post).2) := by
  unfold local_loop
  refine loop_extract_dropped_middle _ _ _ pre post f ?_
  simp [extract_loan_data, extract_loan_data_gen, hrec]

theorem pp_loop_dropped_middle (uj : String → String → String) (url now : String)
    (pre post : List FragE) (f : Frag) (hrec : pyStrip f.recipient_text = "") :
    pp_loop uj url now 0 (pre ++ FragE.ok f :: post) =
      ((pp_loop uj url now 0 pre).1 ++ (pp_loop uj url now (pre.length + 1) post).1,
       (pp_loop uj url now 0 pre).2 ++ (pp_loop uj url now (pre.length + 1) post).2) := by
  unfold pp_loop
  refine loop_extract_dropped_middle _ _ _ pre post f ?_
  simp [pp_extract_loan_data, hrec]

/- ### Claim C4 -/

/-- C4: an exception raised while extracting one fragment is caught at
the fragment boundary, exactly one `ExtractionError` ledger entry
carrying that fragment's index is appended, and every fragment before
and after it is still processed: in both drivers, parsing a document
whose located fragments are `pre ++ [raising] ++ post` yields exactly
the records of `pre` and `post` (at their original indices) and the
ledger of `pre`, then the one entry for index `pre.length`, then the
ledger of `post`. -/
theorem C4_theorem (now q h m : String) (fb pre post : List FragE) :
    ((parse_loan_html ⟨q, h, pre ++ FragE.raises m :: post, fb⟩ now).loans =
       (local_loop now 0 pre).1 ++ (local_loop now (pre.length + 1) post).1 ∧
     (parse_loan_html ⟨q, h, pre ++ FragE.raises m :: post, fb⟩ now).errors =
       (local_loop now 0 pre).2 ++ mk_extraction_err pre.length m now ::
         (local_loop now (pre.length + 1) post).2) ∧
    (∀ (uj : String → String → String) (url : String) (st : Nat), st < 400 →
      (pp_parse uj ⟨url, st, pre ++ FragE.raises m :: post, fb⟩ now).1 =
        (pp_loop uj url now 0 pre).1 ++ (pp_loop uj url now (pre.length + 1) post).1 ∧
      (pp_parse uj ⟨url, st, pre ++ FragE.raises m :: post, fb⟩ now).2 =
        (pp_loop uj url now 0 pre).2 ++ pp_extraction_err pre.length m now ::
          (pp_loop uj url now (pre.length + 1) post).2) := by
  constructor
  · constructor
    · rw [parse_loan_html_loans, selectedItems_mid, local_loop_raises_middle]
    · rw [parse_loan_html_errors, selectedItems_mid, local_loop_raises_middle]
  · intro uj url st hst
    constructor
    · rw [pp_parse_run _ _ _ _ _ _ _ _ hst, pp_loop_raises_middle]
    · rw [pp_parse_run _ _ _ _ _ _ _ _ hst, pp_loop_raises_middle]

/-- C4, witness: the propublica half of the theorem applied to a
document with a good fragment, a raising fragment, and another good
fragment, at status 200. -/
theorem C4_witness :
    200 < 400 ∧
    ((pp_parse (fun _ r => r)
        ⟨"u", 200, [FragE.ok fragA] ++ FragE.raises "boom" :: [FragE.ok fragC], []⟩ "t").1 =
      (pp_loop (fun _ r => r) "u" "t" 0 [FragE.ok fragA]).1 ++
        (pp_loop (fun _ r => r) "u" "t" ([FragE.ok fragA].length + 1) [FragE.ok fragC]).1 ∧
     (pp_parse (fun _ r => r)
        ⟨"u", 200, [FragE.ok fragA] ++ FragE.raises "boom" :: [FragE.ok fragC], []⟩ "t").2 =
      (pp_loop (fun _ r => r) "u" "t" 0 [FragE.ok fragA]).2 ++
        pp_extraction_err [FragE.ok fragA].length "boom" "t" ::
          (pp_loop (fun _ r => r) "u" "t" ([FragE.ok fragA].length + 1) [FragE.ok fragC]).2) :=
  ⟨by decide, ( C4_theorem "t" "q" "h" "boom" [] [FragE.ok fragA] [FragE.ok fragC]).2
    (fun _ r => r) "u" 200 (by decide)⟩

/- ### Claim C5 -/

/-- C5, counterexample.  The claim says a document in which primary and
fallback boundary selectors both locate zero fragments yields zero
records and exactly one advisory error entry.  `parse_loan_html`
returns zero records and an **empty** error ledger — no advisory entry
at all. -/
theorem C5_counterexample :
    (parse_loan_html ⟨"q", "h", [], []⟩ "t").loans = [] ∧
    (parse_loan_html ⟨"q", "h", [], []⟩ "t").errors = [] ∧
    ¬(parse_loan_html ⟨"q", "h", [], []⟩ "t").errors.length = 1 := by
  decide

/-- C5, amended: when both boundary selectors locate zero fragments,
`PropublicaLoanSpider.parse` returns zero records and exactly one
advisory `NoDataFound` entry, while `parse_loan_html` returns zero
records and an empty error ledger; neither raises. -/
theorem C5_amended :
    (∀ (uj : String → String → String) (url now : String) (st : Nat), st < 400 →
      pp_parse uj ⟨url, st, [], []⟩ now = ([], [pp_nodata_err url now])) ∧
    (∀ (q h now : String),
      (parse_loan_html ⟨q, h, [], []⟩ now).loans = [] ∧
      (parse_loan_html ⟨q, h, [], []⟩ now).errors = []) := by
  constructor
  · intro uj url now st hst
    simp [pp_parse, ppSelectedItems, Nat.not_le.mpr hst]
  · intro q h now
    exact ⟨rfl, rfl⟩

/-- C5, witness: the propublica half applied at a concrete empty
document with status 200. -/
theorem C5_witness :
    200 < 400 ∧
    pp_parse (fun _ r => r) ⟨"u", 200, [], []⟩ "t" = ([], [pp_nodata_err "u" "t"]) :=
  ⟨by decide, C5_amended.1 (fun _ r => r) "u" "t" 200 (by decide)⟩

/- ### Claim C8 -/

/-- C8: a located fragment whose identity field (the recipient name) is
empty after extraction is absent from the returned records and produces
no ledger entry — in both drivers, parsing `pre ++ [identity-less] ++
post` yields exactly the records and errors of `pre` and `post`. -/
theorem C8_theorem (now q h : String) (fb pre post : List FragE) (f : Frag)
    (hrec : pyStrip f.recipient_text = "") :
    ((parse_loan_html ⟨q, h, pre ++ FragE.ok f :: post, fb⟩ now).loans =
       (local_loop now 0 pre).1 ++ (local_loop now (pre.length + 1) post).1 ∧
     (parse_loan_html ⟨q, h, pre ++ FragE.ok f :: post, fb⟩ now).errors =
       (local_loop now 0 pre).2 ++ (local_loop now (pre.length + 1) post).2) ∧
    (∀ (uj : String → String → String) (url : String) (st : Nat), st < 400 →
      (pp_parse uj ⟨url, st, pre ++ FragE.ok f :: post, fb⟩ now).1 =
        (pp_loop uj url now 0 pre).1 ++ (pp_loop uj url now (pre.length + 1) post).1 ∧
      (pp_parse uj ⟨url, st, pre ++ FragE.ok f :: post, fb⟩ now).2 =
        (pp_loop uj url now 0 pre).2 ++ (pp_loop uj url now (pre.length + 1) post).2) := by
  constructor
  · constructor
    · rw [parse_loan_html_loans, selectedItems_mid, local_loop_dropped_middle now pre post f hrec]
    · rw [parse_loan_html_errors, selectedItems_mid, local_loop_dropped_middle now pre post f hrec]
  · intro uj url st hst
    constructor
    · rw [pp_parse_run _ _ _ _ _ _ _ _ hst, pp_loop_dropped_middle uj url now pre post f hrec]
    · rw [pp_parse_run _ _ _ _ _ _ _ _ hst, pp_loop_dropped_middle uj url now pre post f hrec]

/-- C8, witness: the local half of the theorem applied to a document
with a real record, an identity-less fragment, and another real
record. -/
theorem C8_witness :
    pyStrip fragB.recipient_text = "" ∧
    (parse_loan_html ⟨"q", "h", [FragE.ok fragA] ++ FragE.ok fragB :: [FragE.ok fragC], []⟩
        "t").loans =
      (local_loop "t" 0 [FragE.ok fragA]).1 ++
        (local_loop "t" ([FragE.ok fragA].length + 1) [FragE.ok fragC]).1 :=
  ⟨by decide,
   (( C8_theorem "t" "q" "h" [] [FragE.ok fragA] [FragE.ok fragC] fragB (by decide)).1).1⟩

/- ### Claim C9 -/

/-- C9, counterexample.  The claim says running extraction twice on the
same immutable document yields identical records and identical errors.
The ledger entries embed `datetime.now()`: two runs of
`parse_loan_html` on the same document at different clock readings
produce different error sequences (differing timestamps). -/
theorem C9_counterexample :
    (parse_loan_html docRaise "t1").errors ≠ (parse_loan_html docRaise "t2").errors := by
  decide

/-- C9, amended: extraction is a deterministic function of the document
and the clock reading, with no hidden mutable state: the records of
`parse_loan_html` are identical across runs at any clock readings, its
error ledgers are identical up to their timestamp field, and the
records and errors of `PropublicaLoanSpider.parse` are identical up to
their `scraped_at`/timestamp fields. -/
theorem C9_amended :
    (∀ (doc : Doc) (t1 t2 : String),
      (parse_loan_html doc t1).loans = (parse_loan_html doc t2).loans) ∧
    (∀ (doc : Doc) (t1 t2 : String),
      (parse_loan_html doc t1).errors.map perrContent =
        (parse_loan_html doc t2).errors.map perrContent) ∧
    (∀ (uj : String → String → String) (resp : PPResponse) (t1 t2 : String),
      (pp_parse uj resp t1).1.map ppLoanContent = (pp_parse uj resp t2).1.map ppLoanContent ∧
      (pp_parse uj resp t1).2.map ppErrContent = (pp_parse uj resp t2).2.map ppErrContent) := by
  have hloc : ∀ (t1 t2 : String) (xs : List FragE) (i : Nat),
      (local_loop t1 i xs).1.map id = (local_loop t2 i xs).1.map id ∧
      (local_loop t1 i xs).2.map perrContent = (local_loop t2 i xs).2.map perrContent :=
    fun t1 t2 xs i =>
      loop_extract_map_eq extract_loan_data (fun l => l.recipient ≠ "")
        (fun i2 m2 => mk_extraction_err i2 m2 t1)
        extract_loan_data (fun l => l.recipient ≠ "")
        (fun i2 m2 => mk_extraction_err i2 m2 t2) id id perrContent perrContent
        (fun _ _ => rfl) (fun _ _ => rfl) (fun _ _ => rfl) xs i
  refine ⟨?_, ?_, ?_⟩
  · intro doc t1 t2
    rw [parse_loan_html_loans, parse_loan_html_loans]
    have h := (hloc t1 t2 (selectedItems doc) 0).1
    simpa using h
  · intro doc t1 t2
    rw [parse_loan_html_errors, parse_loan_html_errors]
    exact (hloc t1 t2 (selectedItems doc) 0).2
  · intro uj resp t1 t2
    unfold pp_parse
    by_cases h4 : 400 ≤ resp.status
    · rw [if_pos h4, if_pos h4]
      exact ⟨rfl, rfl⟩
    · rw [if_neg h4, if_neg h4]
      by_cases he : (ppSelectedItems resp).isEmpty
      · rw [if_pos he, if_pos he]
        exact ⟨rfl, rfl⟩
      · rw [if_neg he, if_neg he]
        exact loop_extract_map_eq (pp_extract_loan_data uj resp.url t1)
          (fun l => l.recipient ≠ "") (fun i2 m2 => pp_extraction_err i2 m2 t1)
          (pp_extract_loan_data uj resp.url t2)
          (fun l => l.recipient ≠ "") (fun i2 m2 => pp_extraction_err i2 m2 t2)
          ppLoanContent ppLoanContent ppErrContent ppErrContent
          (fun _ _ => rfl) (fun _ _ => rfl) (fun _ _ => rfl)
          (ppSelectedItems resp) 0

/- ### Claim C10 -/

theorem local_loop_mem (now : String) (xs : List FragE) (i : Nat) (l : Loan)
    (hl : l ∈ (local_loop now i xs).1) :
    ∃ j f, xs[j]? = some (FragE.ok f) ∧ l = extract_loan_data f (i + j) := by
  obtain ⟨j, f, hj, hr, _⟩ := loop_extract_mem_fst _ _ _ xs i l hl
  exact ⟨j, f, hj, hr⟩

theorem pp_loop_mem (uj : String → String → String) (url now : String) (xs : List FragE)
    (i : Nat) (l : PPLoan) (hl : l ∈ (pp_loop uj url now i xs).1) :
    ∃ j f, xs[j]? = some (FragE.ok f) ∧ l = pp_extract_loan_data uj url now f (i + j) := by
  obtain ⟨j, f, hj, hr, _⟩ := loop_extract_mem_fst _ _ _ xs i l hl
  exact ⟨j, f, hj, hr⟩

/-- C10: each emitted record's index equals 1 plus the zero-based
position of its source fragment in the located-fragment list, so the
indices across the records sequence are strictly increasing and at
least 1 in both drivers; and indices may skip values, as on `exDoc`,
whose middle fragment is dropped for an empty identity field, giving
indices [1, 3]. -/
theorem C10_theorem :
    (∀ (doc : Doc) (now : String) (l : Loan), l ∈ (parse_loan_html doc now).loans →
      1 ≤ l.index ∧ ∃ f : Frag,
        (selectedItems doc)[l.index - 1]? = some (FragE.ok f) ∧
        l = extract_loan_data f (l.index - 1)) ∧
    (∀ (doc : Doc) (now : String),
      ((parse_loan_html doc now).loans.map Loan.index).Pairwise (· < ·)) ∧
    (∀ (uj : String → String → String) (resp : PPResponse) (now : String) (l : PPLoan),
      l ∈ (pp_parse uj resp now).1 →
      1 ≤ l.index ∧ ∃ f : Frag,
        (ppSelectedItems resp)[l.index - 1]? = some (FragE.ok f) ∧
        l = pp_extract_loan_data uj resp.url now f (l.index - 1)) ∧
    (∀ (uj : String → String → String) (resp : PPResponse) (now : String),
      ((pp_parse uj resp now).1.map PPLoan.index).Pairwise (· < ·)) ∧
    (parse_loan_html exDoc "t").loans.map Loan.index = [1, 3] := by
  refine ⟨?_, ?_, ?_, ?_, by decide⟩
  · intro doc now l hl
    rw [parse_loan_html_loans] at hl
    obtain ⟨j, f, hj, hlf⟩ := local_loop_mem now _ 0 l hl
    have hidx : l.index = j + 1 := by
      rw [hlf]; show 0 + j + 1 = j + 1; omega
    refine ⟨by omega, f, ?_, ?_⟩
    · rw [hidx]; simpa using hj
    · rw [hidx]; simpa using hlf
  · intro doc now
    rw [parse_loan_html_loans]
    exact loop_extract_pairwise _ _ _ Loan.index (fun _ _ => rfl) (selectedItems doc) 0
  · intro uj resp now l hl
    unfold pp_parse at hl
    by_cases h4 : 400 ≤ resp.status
    · rw [if_pos h4] at hl; simp at hl
    · rw [if_neg h4] at hl
      by_cases he : (ppSelectedItems resp).isEmpty
      · rw [if_pos he] at hl; simp at hl
      · rw [if_neg he] at hl
        obtain ⟨j, f, hj, hlf⟩ := pp_loop_mem uj resp.url now _ 0 l hl
        have hidx : l.index = j + 1 := by
          rw [hlf]; show 0 + j + 1 = j + 1; omega
        refine ⟨by omega, f, ?_, ?_⟩
        · rw [hidx]; simpa using hj
        · rw [hidx]; simpa using hlf
  · intro uj resp now
    unfold pp_parse
    by_cases h4 : 400 ≤ resp.status
    · rw [if_pos h4]; simp
    · rw [if_neg h4]
      by_cases he : (ppSelectedItems resp).isEmpty
      · rw [if_pos he]; simp
      · rw [if_neg he]
        exact loop_extract_pairwise _ _ _ PPLoan.index (fun _ _ => rfl)
          (ppSelectedItems resp) 0

/-- C10, witness: the characterization applied at the first record of
`exDoc`: it is in the output, its index is 1, and it comes from the
fragment at position 0. -/
theorem C10_witness :
    exLoanA ∈ (parse_loan_html exDoc "t").loans ∧
    (1 ≤ exLoanA.index ∧ ∃ f : Frag,
      (selectedItems exDoc)[exLoanA.index - 1]? = some (FragE.ok f) ∧
      exLoanA = extract_loan_data f (exLoanA.index - 1)) :=
  ⟨by decide, C10_theorem.1 exDoc "t" exLoanA (by decide)⟩
